import Mathlib

set_option maxRecDepth 100000
set_option maxHeartbeats 1000000

/-
  Verification of the dmd_core WE32100 emulator core (cpu.rs, duart.rs)
  against its natural-language specification.

  The CPU decoder, operand evaluation engine, reset sequence and the DUART
  register-write path are shallowly embedded below, translated from the
  Rust source. Machine integers are modelled as Nat with explicit masking
  where the Rust types truncate; fallible operations return an
  Except-with-Option wrapper where the extra `none` models a Rust panic
  (out-of-bounds indexing) or a non-returning execution (the unbounded
  descriptor recursion, which is cut by an explicit fuel argument).
-/

namespace DmdCore

/-- Modelled from the spec (section 4.1): the access-code tag carried by every
bus operation. The bus crate of the repository is not under src, so this
capability interface is taken from the specification text. -/
inductive AccessCode
  | InstrFetch
  | OperandFetch
  | AddressFetch
  | Write
deriving DecidableEq

/-- Modelled from the spec (section 7): bus error taxonomy. -/
inductive BusError
  | Alignment
  | NoDevice
  | ReadOnly
  | Range
deriving DecidableEq

/-- CPU exception classes, from err.rs as described by the spec (section 7). -/
inductive CpuException
  | IllegalOpcode
  | PrivilegedOpcode
  | ReservedOpcode
  | IntegerOverflow
  | IntegerZeroDivide
  | ProcessException
deriving DecidableEq

/-- CPU error type: a CPU exception or a wrapped bus error (spec section 7). -/
inductive CpuError
  | Exception : CpuException → CpuError
  | Bus : BusError → CpuError
deriving DecidableEq

/-- Modelled from the spec (section 4.1): the bus capability consumed by the
core, as a record of state-passing operations over an abstract device-state
type. Reads may mutate device state (clear-on-read and similar); writes take
no access code, matching the call sites in cpu.rs. -/
structure BusOps (σ : Type) where
  read_byte : σ → Nat → AccessCode → Except BusError (Nat × σ)
  read_half : σ → Nat → AccessCode → Except BusError (Nat × σ)
  read_half_unaligned : σ → Nat → AccessCode → Except BusError (Nat × σ)
  read_word : σ → Nat → AccessCode → Except BusError (Nat × σ)
  read_word_unaligned : σ → Nat → AccessCode → Except BusError (Nat × σ)
  write_byte : σ → Nat → Nat → Except BusError σ
  write_half : σ → Nat → Nat → Except BusError σ
  write_word : σ → Nat → Nat → Except BusError σ

/-- Execution results of the embedded CPU operations: `none` models a Rust
panic or a non-terminating execution, `some (Except.error e)` a returned
CpuError, `some (Except.ok a)` a normal result. -/
def EmuM (α : Type) : Type := Option (Except CpuError α)

def EmuM.ok {α : Type} (a : α) : EmuM α := some (Except.ok a)

def EmuM.err {α : Type} (e : CpuError) : EmuM α := some (Except.error e)

def EmuM.abort {α : Type} : EmuM α := none

def EmuM.bind {α β : Type} (x : EmuM α) (f : α → EmuM β) : EmuM β :=
  match x with
  | none => none
  | some (Except.error e) => some (Except.error e)
  | some (Except.ok a) => f a

/-- The IllegalOpcode result, the error raised throughout the decode and
operand-evaluation paths. -/
def illOp {α : Type} : EmuM α := EmuM.err (CpuError.Exception CpuException.IllegalOpcode)

/-- Lift a bus result into the emulation monad, wrapping bus errors as
CpuError.Bus; mirrors the question-mark propagation in the Rust source. -/
def liftBus {α : Type} (x : Except BusError α) : EmuM α :=
  match x with
  | Except.ok a => EmuM.ok a
  | Except.error e => EmuM.err (CpuError.Bus e)

def W32 : Nat := 4294967296

/-- Bus byte read, truncated to the u8 range of the Rust return type. -/
def readByte8 {σ : Type} (bus : BusOps σ) (s : σ) (a : Nat) (ac : AccessCode) : EmuM (Nat × σ) :=
  EmuM.bind (liftBus (bus.read_byte s a ac)) (fun vs => EmuM.ok (vs.1 % 256, vs.2))

/-- Aligned bus half-word read, truncated to the u16 range. -/
def readHalf16 {σ : Type} (bus : BusOps σ) (s : σ) (a : Nat) (ac : AccessCode) : EmuM (Nat × σ) :=
  EmuM.bind (liftBus (bus.read_half s a ac)) (fun vs => EmuM.ok (vs.1 % 65536, vs.2))

/-- Unaligned bus half-word read, truncated to the u16 range. -/
def readHalf16u {σ : Type} (bus : BusOps σ) (s : σ) (a : Nat) (ac : AccessCode) : EmuM (Nat × σ) :=
  EmuM.bind (liftBus (bus.read_half_unaligned s a ac)) (fun vs => EmuM.ok (vs.1 % 65536, vs.2))

/-- Aligned bus word read, truncated to the u32 range. -/
def readWord32 {σ : Type} (bus : BusOps σ) (s : σ) (a : Nat) (ac : AccessCode) : EmuM (Nat × σ) :=
  EmuM.bind (liftBus (bus.read_word s a ac)) (fun vs => EmuM.ok (vs.1 % W32, vs.2))

/-- Unaligned bus word read, truncated to the u32 range. -/
def readWord32u {σ : Type} (bus : BusOps σ) (s : σ) (a : Nat) (ac : AccessCode) : EmuM (Nat × σ) :=
  EmuM.bind (liftBus (bus.read_word_unaligned s a ac)) (fun vs => EmuM.ok (vs.1 % W32, vs.2))

/-- PSW field masks, from cpu.rs. -/
def F_ISC : Nat := 0x00000078
def F_I : Nat := 0x00000080
def F_PM : Nat := 0x00000600
def F_CM : Nat := 0x00001800
def F_C : Nat := 0x00040000
def F_V : Nat := 0x00080000
def F_Z : Nat := 0x00100000
def F_N : Nat := 0x00200000

/-- Register indexes, from cpu.rs. -/
def R_FP : Nat := 9
def R_AP : Nat := 10
def R_PSW : Nat := 11
def R_SP : Nat := 12
def R_PCBP : Nat := 13
def R_PC : Nat := 15

/-- Bitwise complement within a 32-bit word, the Rust bang operator on u32. -/
def not32 (x : Nat) : Nat := 4294967295 ^^^ (x % W32)

/-- Bitwise complement within an 8-bit byte, the Rust bang operator on u8. -/
def not8 (x : Nat) : Nat := 255 ^^^ (x % 256)

/-- sign_extend_halfword from cpu.rs; the argument is first truncated to u16,
modelling the cast at the Rust call sites. -/
def sign_extend_halfword (data : Nat) : Nat :=
  let h := data % 65536
  if h < 32768 then h else h + 0xFFFF0000

/-- zero_extend_halfword from cpu.rs. -/
def zero_extend_halfword (data : Nat) : Nat := data % 65536

/-- sign_extend_byte from cpu.rs; the argument is first truncated to u8,
modelling the cast at the Rust call sites. -/
def sign_extend_byte (data : Nat) : Nat :=
  let b := data % 256
  if b < 128 then b else b + 0xFFFFFF00

/-- zero_extend_byte from cpu.rs. -/
def zero_extend_byte (data : Nat) : Nat := data % 256

inductive AddrMode
  | None
  | Absolute
  | AbsoluteDeferred
  | ByteDisplacement
  | ByteDisplacementDeferred
  | HalfwordDisplacement
  | HalfwordDisplacementDeferred
  | WordDisplacement
  | WordDisplacementDeferred
  | APShortOffset
  | FPShortOffset
  | ByteImmediate
  | HalfwordImmediate
  | WordImmediate
  | PositiveLiteral
  | NegativeLiteral
  | Register
  | RegisterDeferred
  | Expanded
deriving DecidableEq

inductive OpType
  | Lit
  | Src
  | Dest
deriving DecidableEq

inductive Data
  | None
  | Byte
  | Half
  | Word
  | SByte
  | UHalf
  | UWord
deriving DecidableEq

/-- Operand record, from cpu.rs. -/
structure Operand where
  size : Nat
  mode : AddrMode
  data_type : Data
  expanded_type : Option Data
  register : Option Nat
  embedded : Nat
deriving DecidableEq

/-- Operand::new from cpu.rs. -/
def Operand.new (size : Nat) (mode : AddrMode) (data_type : Data) (expanded_type : Option Data)
    (register : Option Nat) (embedded : Nat) : Operand :=
  Operand.mk size mode data_type expanded_type register embedded

/-- Operand::data_type() from cpu.rs: the effective data width, expanded if
present else intrinsic. -/
def Operand.dataType (o : Operand) : Data :=
  match o.expanded_type with
  | some t => t
  | none => o.data_type

/-- Mnemonic record, from cpu.rs. -/
structure Mnemonic where
  opcode : Nat
  dtype : Data
  name : String
  ops : List OpType
deriving DecidableEq

/-- The mn! constructor macro from cpu.rs. -/
def mn (opcode : Nat) (dtype : Data) (name : String) (ops : List OpType) : Mnemonic :=
  { opcode := opcode, dtype := dtype, name := name, ops := ops }

/-- DecodedInstruction record, from cpu.rs. -/
structure DecodedInstruction where
  mnemonic : Mnemonic
  bytes : Nat
  operands : List Operand
deriving DecidableEq

/-- The 11-entry HALFWORD_OPCODES table from cpu.rs. -/
def HALFWORD_OPCODES : List Mnemonic := [
  mn 0x09 Data.None "MVERNO" [],
  mn 0x0d Data.None "ENBVJMP" [],
  mn 0x13 Data.None "DISVJMP" [],
  mn 0x19 Data.None "MOVBLW" [],
  mn 0x1f Data.None "STREND" [],
  mn 0x2f Data.None "INTACK" [],
  mn 0x3f Data.None "STRCPY" [],
  mn 0x45 Data.None "RETG" [],
  mn 0x61 Data.None "GATE" [],
  mn 0xac Data.None "CALLPS" [],
  mn 0xc8 Data.None "RETPS" []
]

/-- The 256-entry primary OPCODES table from cpu.rs. -/
def OPCODES : List Mnemonic := [
  mn 0x00 Data.None "halt" [],
  mn 0x01 Data.None "???" [],
  mn 0x02 Data.Word "SPOPRD" [OpType.Lit, OpType.Src],
  mn 0x03 Data.Word "SPOPRD2" [OpType.Lit, OpType.Src, OpType.Dest],
  mn 0x04 Data.Word "MOVAW" [OpType.Src, OpType.Dest],
  mn 0x05 Data.None "???" [],
  mn 0x06 Data.Word "SPOPRT" [OpType.Lit, OpType.Src],
  mn 0x07 Data.Word "SPOPT2" [OpType.Lit, OpType.Src, OpType.Dest],
  mn 0x08 Data.None "RET" [],
  mn 0x09 Data.None "???" [],
  mn 0x0A Data.None "???" [],
  mn 0x0B Data.None "???" [],
  mn 0x0C Data.Word "MOVTRW" [OpType.Src, OpType.Dest],
  mn 0x0D Data.None "???" [],
  mn 0x0E Data.None "???" [],
  mn 0x0F Data.None "???" [],
  mn 0x10 Data.Word "SAVE" [OpType.Src],
  mn 0x11 Data.None "???" [],
  mn 0x12 Data.None "???" [],
  mn 0x13 Data.Word "SPOPWD" [OpType.Lit, OpType.Dest],
  mn 0x14 Data.Byte "EXTOP" [],
  mn 0x15 Data.None "???" [],
  mn 0x16 Data.None "???" [],
  mn 0x17 Data.Word "SPOPWT" [OpType.Lit, OpType.Dest],
  mn 0x18 Data.None "RESTORE" [OpType.Src],
  mn 0x19 Data.None "???" [],
  mn 0x1A Data.None "???" [],
  mn 0x1B Data.None "???" [],
  mn 0x1C Data.Word "SWAPWI" [OpType.Dest],
  mn 0x1D Data.None "???" [],
  mn 0x1E Data.Half "SWAPHI" [OpType.Dest],
  mn 0x1F Data.Byte "SWAPBI" [OpType.Dest],
  mn 0x20 Data.Word "POPW" [OpType.Src],
  mn 0x21 Data.None "???" [],
  mn 0x22 Data.Word "SPOPRS" [OpType.Lit, OpType.Src],
  mn 0x23 Data.Word "SPOPS2" [OpType.Lit, OpType.Src, OpType.Dest],
  mn 0x24 Data.Word "JMP" [OpType.Dest],
  mn 0x25 Data.None "???" [],
  mn 0x26 Data.None "???" [],
  mn 0x27 Data.None "CFLUSH" [],
  mn 0x28 Data.Word "TSTW" [OpType.Src],
  mn 0x29 Data.None "???" [],
  mn 0x2A Data.Half "TSTH" [OpType.Src],
  mn 0x2B Data.Byte "TSTB" [OpType.Src],
  mn 0x2C Data.Word "CALL" [OpType.Src, OpType.Dest],
  mn 0x2D Data.None "???" [],
  mn 0x2E Data.None "BPT" [],
  mn 0x2F Data.None "WAIT" [],
  mn 0x30 Data.None "???" [],
  mn 0x31 Data.None "???" [],
  mn 0x32 Data.Word "SPOP" [OpType.Lit],
  mn 0x33 Data.Word "SPOPWS" [OpType.Lit, OpType.Dest],
  mn 0x34 Data.Word "JSB" [OpType.Dest],
  mn 0x35 Data.None "???" [],
  mn 0x36 Data.Half "BSBH" [OpType.Lit],
  mn 0x37 Data.Byte "BSBB" [OpType.Lit],
  mn 0x38 Data.Word "BITW" [OpType.Src, OpType.Src],
  mn 0x39 Data.None "???" [],
  mn 0x3A Data.Half "BITH" [OpType.Src, OpType.Src],
  mn 0x3B Data.Byte "BITB" [OpType.Src, OpType.Src],
  mn 0x3C Data.Word "CMPW" [OpType.Src, OpType.Src],
  mn 0x3D Data.None "???" [],
  mn 0x3E Data.Half "CMPH" [OpType.Src, OpType.Src],
  mn 0x3F Data.Byte "CMPB" [OpType.Src, OpType.Src],
  mn 0x40 Data.None "RGEQ" [],
  mn 0x41 Data.None "???" [],
  mn 0x42 Data.Half "BGEH" [OpType.Lit],
  mn 0x43 Data.Byte "BGEB" [OpType.Lit],
  mn 0x44 Data.None "RGTR" [],
  mn 0x45 Data.None "???" [],
  mn 0x46 Data.Half "BGH" [OpType.Lit],
  mn 0x47 Data.Byte "BGB" [OpType.Lit],
  mn 0x48 Data.None "RLSS" [],
  mn 0x49 Data.None "???" [],
  mn 0x4A Data.Half "BLH" [OpType.Lit],
  mn 0x4B Data.Byte "BLB" [OpType.Lit],
  mn 0x4C Data.None "RLEQ" [],
  mn 0x4D Data.None "???" [],
  mn 0x4E Data.Half "BLEH" [OpType.Lit],
  mn 0x4F Data.Byte "BLEB" [OpType.Lit],
  mn 0x50 Data.None "RGEQU" [],
  mn 0x51 Data.None "???" [],
  mn 0x52 Data.Half "BGEUH" [OpType.Lit],
  mn 0x53 Data.Byte "BGEUB" [OpType.Lit],
  mn 0x54 Data.None "RGTRU" [],
  mn 0x55 Data.None "???" [],
  mn 0x56 Data.Half "BGUH" [OpType.Lit],
  mn 0x57 Data.Byte "BGUB" [OpType.Lit],
  mn 0x58 Data.None "RLSSU" [],
  mn 0x59 Data.None "???" [],
  mn 0x5A Data.Half "BLUH" [OpType.Lit],
  mn 0x5B Data.Byte "BLUB" [OpType.Lit],
  mn 0x5C Data.None "RLEQU" [],
  mn 0x5D Data.None "???" [],
  mn 0x5E Data.Half "BLEUH" [OpType.Lit],
  mn 0x5F Data.Byte "BLEUB" [OpType.Lit],
  mn 0x60 Data.None "RVC" [],
  mn 0x61 Data.None "???" [],
  mn 0x62 Data.Half "BVCH" [OpType.Lit],
  mn 0x63 Data.Byte "BVCB" [OpType.Lit],
  mn 0x64 Data.None "RNEQU" [],
  mn 0x65 Data.None "???" [],
  mn 0x66 Data.Half "BNEH" [OpType.Lit],
  mn 0x67 Data.Byte "BNEB" [OpType.Lit],
  mn 0x68 Data.None "RVS" [],
  mn 0x69 Data.None "???" [],
  mn 0x6A Data.Half "BVSH" [OpType.Lit],
  mn 0x6B Data.Byte "BVSB" [OpType.Lit],
  mn 0x6C Data.None "REQLU" [],
  mn 0x6D Data.None "???" [],
  mn 0x6E Data.Half "BEH" [OpType.Lit],
  mn 0x6F Data.Byte "BEB" [OpType.Lit],
  mn 0x70 Data.None "NOP" [],
  mn 0x71 Data.None "???" [],
  mn 0x72 Data.None "NOP3" [],
  mn 0x73 Data.None "NOP2" [],
  mn 0x74 Data.None "RNEQ" [],
  mn 0x75 Data.None "???" [],
  mn 0x76 Data.Half "BNEH" [OpType.Lit],
  mn 0x77 Data.Byte "BNEB" [OpType.Lit],
  mn 0x78 Data.None "RSB" [],
  mn 0x79 Data.None "???" [],
  mn 0x7A Data.Half "BRH" [OpType.Lit],
  mn 0x7B Data.Byte "BRB" [OpType.Lit],
  mn 0x7C Data.None "REQL" [],
  mn 0x7D Data.None "???" [],
  mn 0x7E Data.Half "BEH" [OpType.Lit],
  mn 0x7F Data.Byte "BEB" [OpType.Lit],
  mn 0x80 Data.Word "CLRW" [OpType.Dest],
  mn 0x81 Data.None "???" [],
  mn 0x82 Data.Half "CLRH" [OpType.Dest],
  mn 0x83 Data.Byte "CLRB" [OpType.Dest],
  mn 0x84 Data.Word "MOVW" [OpType.Src, OpType.Dest],
  mn 0x85 Data.None "???" [],
  mn 0x86 Data.Half "MOVH" [OpType.Src, OpType.Dest],
  mn 0x87 Data.Byte "MOVB" [OpType.Src, OpType.Dest],
  mn 0x88 Data.Word "MCOMW" [OpType.Src, OpType.Dest],
  mn 0x89 Data.None "???" [],
  mn 0x8A Data.Half "MCOMH" [OpType.Src, OpType.Dest],
  mn 0x8B Data.Byte "MCOMB" [OpType.Src, OpType.Dest],
  mn 0x8C Data.Word "MNEGW" [OpType.Src, OpType.Dest],
  mn 0x8D Data.None "???" [],
  mn 0x8E Data.Half "MNEGH" [OpType.Src, OpType.Dest],
  mn 0x8F Data.Byte "MNEGB" [OpType.Src, OpType.Dest],
  mn 0x90 Data.Word "INCW" [OpType.Dest],
  mn 0x91 Data.None "???" [],
  mn 0x92 Data.Half "INCH" [OpType.Dest],
  mn 0x93 Data.Byte "INCB" [OpType.Dest],
  mn 0x94 Data.Word "DECW" [OpType.Dest],
  mn 0x95 Data.None "???" [],
  mn 0x96 Data.Half "DECH" [OpType.Dest],
  mn 0x97 Data.Byte "DECB" [OpType.Dest],
  mn 0x98 Data.None "???" [],
  mn 0x99 Data.None "???" [],
  mn 0x9A Data.None "???" [],
  mn 0x9B Data.None "???" [],
  mn 0x9C Data.Word "ADDW2" [OpType.Src, OpType.Dest],
  mn 0x9D Data.None "???" [],
  mn 0x9E Data.Half "ADDH2" [OpType.Src, OpType.Dest],
  mn 0x9F Data.Byte "ADDB2" [OpType.Src, OpType.Dest],
  mn 0xA0 Data.Word "PUSHW" [OpType.Src],
  mn 0xA1 Data.None "???" [],
  mn 0xA2 Data.None "???" [],
  mn 0xA3 Data.None "???" [],
  mn 0xA4 Data.Word "MODW2" [OpType.Src, OpType.Dest],
  mn 0xA5 Data.None "???" [],
  mn 0xA6 Data.Half "MODH2" [OpType.Src, OpType.Dest],
  mn 0xA7 Data.Byte "MODB2" [OpType.Src, OpType.Dest],
  mn 0xA8 Data.Word "MULW2" [OpType.Src, OpType.Dest],
  mn 0xA9 Data.None "???" [],
  mn 0xAA Data.Half "MULH2" [OpType.Src, OpType.Dest],
  mn 0xAB Data.Byte "MULB2" [OpType.Src, OpType.Dest],
  mn 0xAC Data.Word "DIVW2" [OpType.Src, OpType.Dest],
  mn 0xAD Data.None "???" [],
  mn 0xAE Data.Half "DIVH2" [OpType.Src, OpType.Dest],
  mn 0xAF Data.Byte "DIVB2" [OpType.Src, OpType.Dest],
  mn 0xB0 Data.Word "ORW2" [OpType.Src, OpType.Dest],
  mn 0xB1 Data.None "???" [],
  mn 0xB2 Data.Half "ORH2" [OpType.Src, OpType.Dest],
  mn 0xB3 Data.Byte "ORB2" [OpType.Src, OpType.Dest],
  mn 0xB4 Data.Word "XORW2" [OpType.Src, OpType.Dest],
  mn 0xB5 Data.None "???" [],
  mn 0xB6 Data.Half "XORH2" [OpType.Src, OpType.Dest],
  mn 0xB7 Data.Byte "XORB2" [OpType.Src, OpType.Dest],
  mn 0xB8 Data.Word "ANDW2" [OpType.Src, OpType.Dest],
  mn 0xB9 Data.None "???" [],
  mn 0xBA Data.Half "ANDH2" [OpType.Src, OpType.Dest],
  mn 0xBB Data.Byte "ANDB2" [OpType.Src, OpType.Dest],
  mn 0xBC Data.Word "SUBW2" [OpType.Src, OpType.Dest],
  mn 0xBD Data.None "???" [],
  mn 0xBE Data.Half "SUBH2" [OpType.Src, OpType.Dest],
  mn 0xBF Data.Byte "SUBB2" [OpType.Src, OpType.Dest],
  mn 0xC0 Data.Word "ALSW3" [OpType.Src, OpType.Src, OpType.Dest],
  mn 0xC1 Data.None "???" [],
  mn 0xC2 Data.None "???" [],
  mn 0xC3 Data.None "???" [],
  mn 0xC4 Data.Word "ARSW3" [OpType.Src, OpType.Src, OpType.Dest],
  mn 0xC5 Data.None "???" [],
  mn 0xC6 Data.Half "ARSH3" [OpType.Src, OpType.Src, OpType.Dest],
  mn 0xC7 Data.Byte "ARSB3" [OpType.Src, OpType.Src, OpType.Dest],
  mn 0xC8 Data.Word "INSFW" [OpType.Src, OpType.Src, OpType.Src, OpType.Dest],
  mn 0xC9 Data.None "???" [],
  mn 0xCA Data.Half "INSFH" [OpType.Src, OpType.Src, OpType.Src, OpType.Dest],
  mn 0xCB Data.Byte "INSFB" [OpType.Src, OpType.Src, OpType.Src, OpType.Dest],
  mn 0xCC Data.Word "EXTFW" [OpType.Src, OpType.Src, OpType.Src, OpType.Dest],
  mn 0xCD Data.None "???" [],
  mn 0xCE Data.Half "EXTFH" [OpType.Src, OpType.Src, OpType.Src, OpType.Dest],
  mn 0xCF Data.Byte "EXTFB" [OpType.Src, OpType.Src, OpType.Src, OpType.Dest],
  mn 0xD0 Data.Word "LLSW3" [OpType.Src, OpType.Src, OpType.Dest],
  mn 0xD1 Data.None "???" [],
  mn 0xD2 Data.Half "LLSH3" [OpType.Src, OpType.Src, OpType.Dest],
  mn 0xD3 Data.Byte "LLSB3" [OpType.Src, OpType.Src, OpType.Dest],
  mn 0xD4 Data.Word "LRSW3" [OpType.Src, OpType.Src, OpType.Dest],
  mn 0xD5 Data.None "???" [],
  mn 0xD6 Data.None "???" [],
  mn 0xD7 Data.None "???" [],
  mn 0xD8 Data.Word "ROTW" [OpType.Src, OpType.Src, OpType.Dest],
  mn 0xD9 Data.None "???" [],
  mn 0xDA Data.None "???" [],
  mn 0xDB Data.None "???" [],
  mn 0xDC Data.Word "ADDW3" [OpType.Src, OpType.Src, OpType.Dest],
  mn 0xDD Data.None "???" [],
  mn 0xDE Data.Half "ADDH3" [OpType.Src, OpType.Src, OpType.Dest],
  mn 0xDF Data.Byte "ADDB3" [OpType.Src, OpType.Src, OpType.Dest],
  mn 0xE0 Data.Word "PUSHAW" [OpType.Src],
  mn 0xE1 Data.None "???" [],
  mn 0xE2 Data.None "???" [],
  mn 0xE3 Data.None "???" [],
  mn 0xE4 Data.Word "MODW3" [OpType.Src, OpType.Src, OpType.Dest],
  mn 0xE5 Data.None "???" [],
  mn 0xE6 Data.Half "MODH3" [OpType.Src, OpType.Src, OpType.Dest],
  mn 0xE7 Data.Byte "MODB3" [OpType.Src, OpType.Src, OpType.Dest],
  mn 0xE8 Data.Word "MULW3" [OpType.Src, OpType.Src, OpType.Dest],
  mn 0xE9 Data.None "???" [],
  mn 0xEA Data.Half "MULH3" [OpType.Src, OpType.Src, OpType.Dest],
  mn 0xEB Data.Byte "MULB3" [OpType.Src, OpType.Src, OpType.Dest],
  mn 0xEC Data.Word "DIVW3" [OpType.Src, OpType.Src, OpType.Dest],
  mn 0xED Data.None "???" [],
  mn 0xEE Data.Half "DIVH3" [OpType.Src, OpType.Src, OpType.Dest],
  mn 0xEF Data.Byte "DIVB3" [OpType.Src, OpType.Src, OpType.Dest],
  mn 0xF0 Data.Word "ORW3" [OpType.Src, OpType.Src, OpType.Dest],
  mn 0xF1 Data.None "???" [],
  mn 0xF2 Data.Half "ORH3" [OpType.Src, OpType.Src, OpType.Dest],
  mn 0xF3 Data.Byte "ORB3" [OpType.Src, OpType.Src, OpType.Dest],
  mn 0xF4 Data.Word "XORW3" [OpType.Src, OpType.Src, OpType.Dest],
  mn 0xF5 Data.None "???" [],
  mn 0xF6 Data.Half "XORH3" [OpType.Src, OpType.Src, OpType.Dest],
  mn 0xF7 Data.Byte "XORB3" [OpType.Src, OpType.Src, OpType.Dest],
  mn 0xF8 Data.Word "ANDW3" [OpType.Src, OpType.Src, OpType.Dest],
  mn 0xF9 Data.None "???" [],
  mn 0xFA Data.Half "ANDH3" [OpType.Src, OpType.Src, OpType.Dest],
  mn 0xFB Data.Byte "ANDB3" [OpType.Src, OpType.Src, OpType.Dest],
  mn 0xFC Data.Word "SUBW3" [OpType.Src, OpType.Src, OpType.Dest],
  mn 0xFD Data.None "???" [],
  mn 0xFE Data.Half "SUBH3" [OpType.Src, OpType.Src, OpType.Dest],
  mn 0xFF Data.Byte "SUBB3" [OpType.Src, OpType.Src, OpType.Dest]
]

/-- Indexing the fixed 256-entry OPCODES array with a u8 value; the default
is unreachable because the table has 256 entries and the index is a byte. -/
def opcodeAt (b : Nat) : Mnemonic :=
  (OPCODES.get? (b % 256)).getD (mn 0 Data.None "" [])

/-- The CPU register file, an array of sixteen u32 registers, from cpu.rs.
The decoded-instruction cache field of the Rust struct is omitted: it is
never read by the embedded operations. -/
structure Cpu where
  r : Fin 16 → Nat

def Cpu.new : Cpu := { r := fun _ => 0 }

/-- Checked register read; indices come from the R-constants or from decoded
operands, all below 16. Out-of-range hand-built indices yield 0 and are
always guarded by an explicit bound check at the call sites that model the
Rust panicking array accesses. -/
def Cpu.getR (c : Cpu) (i : Nat) : Nat :=
  if h : i < 16 then c.r ⟨i, h⟩ else 0

def Cpu.setR (c : Cpu) (i : Nat) (v : Nat) : Cpu :=
  { r := fun j => if j.val = i then v else c.r j }

/-- Cpu::set_isc from cpu.rs: clear the ISC field, then set the new value. -/
def Cpu.set_isc (c : Cpu) (v : Nat) : Cpu :=
  let psw := c.getR R_PSW &&& not32 F_ISC
  c.setR R_PSW (psw ||| ((v &&& 0xf) <<< 3))

/-- Cpu::set_pc from cpu.rs. -/
def Cpu.set_pc (c : Cpu) (v : Nat) : Cpu := c.setR R_PC v

/-- Cpu::reset from cpu.rs: load PCBP from physical 0x80, then PSW, PC and SP
from the process control block, clear the I bit (advancing PCBP by 12) when
set, and set ISC to 3. Word values are masked to u32; the register-indexed
addresses are u32 values used as usize, so the +4/+8/+12 additions cannot
overflow the usize additions of the source (PCBP itself wraps at u32). -/
def Cpu.reset {σ : Type} (bus : BusOps σ) (c : Cpu) (s : σ) : EmuM (Cpu × σ) :=
  EmuM.bind (readWord32 bus s 0x80 AccessCode.AddressFetch) (fun r0 =>
  let c := c.setR R_PCBP r0.1
  EmuM.bind (readWord32 bus r0.2 (c.getR R_PCBP) AccessCode.AddressFetch) (fun r1 =>
  let c := c.setR R_PSW r1.1
  EmuM.bind (readWord32 bus r1.2 (c.getR R_PCBP + 4) AccessCode.AddressFetch) (fun r2 =>
  let c := c.setR R_PC r2.1
  EmuM.bind (readWord32 bus r2.2 (c.getR R_PCBP + 8) AccessCode.AddressFetch) (fun r3 =>
  let c := c.setR R_SP r3.1
  let c :=
    if c.getR R_PSW &&& F_I ≠ 0 then
      let c := c.setR R_PSW (c.getR R_PSW &&& not32 F_I)
      c.setR R_PCBP ((c.getR R_PCBP + 12) % W32)
    else c
  EmuM.ok (c.set_isc 3, r3.2)))))

/-- Cpu::effective_address from cpu.rs. Register-indexed arms model the Rust
checked array access: an index of 16 or more is a panic (EmuM.abort). The u32
additions wrap modulo 2 to the 32, as the specification states. -/
def Cpu.effective_address {σ : Type} (bus : BusOps σ) (c : Cpu) (s : σ) (op : Operand) :
    EmuM (Nat × σ) :=
  match op.mode with
  | AddrMode.RegisterDeferred =>
    match op.register with
    | none => illOp
    | some r => if r < 16 then EmuM.ok (c.getR r, s) else EmuM.abort
  | AddrMode.Absolute => EmuM.ok (op.embedded, s)
  | AddrMode.AbsoluteDeferred => readWord32 bus s op.embedded AccessCode.AddressFetch
  | AddrMode.FPShortOffset =>
    EmuM.ok ((c.getR R_FP + sign_extend_byte op.embedded) % W32, s)
  | AddrMode.APShortOffset =>
    EmuM.ok ((c.getR R_AP + sign_extend_byte op.embedded) % W32, s)
  | AddrMode.WordDisplacement =>
    match op.register with
    | none => illOp
    | some r =>
      if r < 16 then EmuM.ok ((c.getR r + op.embedded) % W32, s) else EmuM.abort
  | AddrMode.WordDisplacementDeferred =>
    match op.register with
    | none => illOp
    | some r =>
      if r < 16 then
        readWord32 bus s ((c.getR r + op.embedded) % W32) AccessCode.AddressFetch
      else EmuM.abort
  | AddrMode.HalfwordDisplacement =>
    match op.register with
    | none => illOp
    | some r =>
      if r < 16 then EmuM.ok ((c.getR r + sign_extend_halfword op.embedded) % W32, s)
      else EmuM.abort
  | AddrMode.HalfwordDisplacementDeferred =>
    match op.register with
    | none => illOp
    | some r =>
      if r < 16 then
        readWord32 bus s ((c.getR r + sign_extend_halfword op.embedded) % W32)
          AccessCode.AddressFetch
      else EmuM.abort
  | AddrMode.ByteDisplacement =>
    match op.register with
    | none => illOp
    | some r =>
      if r < 16 then EmuM.ok ((c.getR r + sign_extend_byte op.embedded) % W32, s)
      else EmuM.abort
  | AddrMode.ByteDisplacementDeferred =>
    match op.register with
    | none => illOp
    | some r =>
      if r < 16 then
        readWord32 bus s ((c.getR r + sign_extend_byte op.embedded) % W32)
          AccessCode.AddressFetch
      else EmuM.abort
  | _ => illOp

/-- Cpu::read_op from cpu.rs: evaluate an operand to a value through the
effective data width of the operand. -/
def Cpu.read_op {σ : Type} (bus : BusOps σ) (c : Cpu) (s : σ) (op : Operand) :
    EmuM (Nat × σ) :=
  match op.mode with
  | AddrMode.Register =>
    match op.register with
    | none => illOp
    | some r =>
      if r < 16 then
        match op.dataType with
        | Data.Word => EmuM.ok (c.getR r, s)
        | Data.UWord => EmuM.ok (c.getR r, s)
        | Data.Half => EmuM.ok (sign_extend_halfword (c.getR r), s)
        | Data.UHalf => EmuM.ok (c.getR r % 65536, s)
        | Data.Byte => EmuM.ok (c.getR r % 256, s)
        | Data.SByte => EmuM.ok (sign_extend_byte (c.getR r), s)
        | Data.None => illOp
      else EmuM.abort
  | AddrMode.PositiveLiteral => EmuM.ok (sign_extend_byte op.embedded, s)
  | AddrMode.NegativeLiteral => EmuM.ok (sign_extend_byte op.embedded, s)
  | AddrMode.WordImmediate => EmuM.ok (op.embedded, s)
  | AddrMode.HalfwordImmediate => EmuM.ok (sign_extend_halfword op.embedded, s)
  | AddrMode.ByteImmediate => EmuM.ok (sign_extend_byte op.embedded, s)
  | _ =>
    EmuM.bind (Cpu.effective_address bus c s op) (fun es =>
      match op.dataType with
      | Data.UWord => readWord32 bus es.2 es.1 AccessCode.InstrFetch
      | Data.Word => readWord32 bus es.2 es.1 AccessCode.InstrFetch
      | Data.Half =>
        EmuM.bind (readHalf16 bus es.2 es.1 AccessCode.InstrFetch) (fun hs =>
          EmuM.ok (sign_extend_halfword hs.1, hs.2))
      | Data.UHalf => readHalf16 bus es.2 es.1 AccessCode.InstrFetch
      | Data.Byte => readByte8 bus es.2 es.1 AccessCode.InstrFetch
      | Data.SByte =>
        EmuM.bind (readByte8 bus es.2 es.1 AccessCode.InstrFetch) (fun bs =>
          EmuM.ok (sign_extend_byte bs.1, bs.2))
      | Data.None => illOp)

/-- Cpu::write_op from cpu.rs: store a value through an operand. The value
parameter is a u32, so it is masked on entry. -/
def Cpu.write_op {σ : Type} (bus : BusOps σ) (c : Cpu) (s : σ) (op : Operand) (val : Nat) :
    EmuM (Cpu × σ) :=
  match op.mode with
  | AddrMode.Register =>
    match op.register with
    | some r => if r < 16 then EmuM.ok (c.setR r (val % W32), s) else EmuM.abort
    | none => illOp
  | AddrMode.NegativeLiteral => illOp
  | AddrMode.PositiveLiteral => illOp
  | AddrMode.ByteImmediate => illOp
  | AddrMode.HalfwordImmediate => illOp
  | AddrMode.WordImmediate => illOp
  | _ =>
    EmuM.bind (Cpu.effective_address bus c s op) (fun es =>
      match op.dataType with
      | Data.UWord => EmuM.bind (liftBus (bus.write_word es.2 es.1 (val % W32)))
          (fun s2 => EmuM.ok (c, s2))
      | Data.Word => EmuM.bind (liftBus (bus.write_word es.2 es.1 (val % W32)))
          (fun s2 => EmuM.ok (c, s2))
      | Data.Half => EmuM.bind (liftBus (bus.write_half es.2 es.1 (val % 65536)))
          (fun s2 => EmuM.ok (c, s2))
      | Data.UHalf => EmuM.bind (liftBus (bus.write_half es.2 es.1 (val % 65536)))
          (fun s2 => EmuM.ok (c, s2))
      | Data.Byte => EmuM.bind (liftBus (bus.write_byte es.2 es.1 (val % 256)))
          (fun s2 => EmuM.ok (c, s2))
      | Data.SByte => EmuM.bind (liftBus (bus.write_byte es.2 es.1 (val % 256)))
          (fun s2 => EmuM.ok (c, s2))
      | Data.None => illOp)

/-- Cpu::decode_operand_literal from cpu.rs: a literal-role operand is read
at the mnemonic data width with no descriptor byte. -/
def decode_operand_literal {σ : Type} (bus : BusOps σ) (mnm : Mnemonic) (s : σ) (addr : Nat) :
    EmuM (Operand × σ) :=
  match mnm.dtype with
  | Data.Byte =>
    EmuM.bind (readByte8 bus s addr AccessCode.OperandFetch) (fun bs =>
      EmuM.ok (Operand.new 1 AddrMode.None Data.Byte none none bs.1, bs.2))
  | Data.Half =>
    EmuM.bind (readHalf16u bus s addr AccessCode.OperandFetch) (fun hs =>
      EmuM.ok (Operand.new 2 AddrMode.None Data.Half none none hs.1, hs.2))
  | Data.Word =>
    EmuM.bind (readWord32u bus s addr AccessCode.OperandFetch) (fun ws =>
      EmuM.ok (Operand.new 4 AddrMode.None Data.Word none none ws.1, ws.2))
  | _ => illOp

/-- The high nibble of a descriptor byte, the m field. -/
def nibbleHigh (b : Nat) : Nat := (b &&& 0xf0) >>> 4

/-- The low nibble of a descriptor byte, the r field. -/
def nibbleLow (b : Nat) : Nat := b &&& 0xf

/-- Cpu::decode_operand_descriptor from cpu.rs. The final Nat argument is
fuel bounding the recursion depth through Expanded (m equal 14) descriptor
chains; the Rust source recurses without bound there, so fuel exhaustion is
mapped to the non-returning outcome EmuM.abort. One unit of fuel is consumed
per descriptor byte examined. -/
def decode_operand_descriptor {σ : Type} (bus : BusOps σ) (dtype : Data) (etype : Option Data)
    (s : σ) (addr : Nat) (recur : Bool) : Nat → EmuM (Operand × σ)
  | 0 => EmuM.abort
  | fuel + 1 =>
    EmuM.bind (readByte8 bus s addr AccessCode.OperandFetch) (fun bs =>
      let descriptor_byte := bs.1
      let s := bs.2
      let m := nibbleHigh descriptor_byte
      let r := nibbleLow descriptor_byte
      let dsize : Nat := if recur then 2 else 1
      match m with
      | 0 | 1 | 2 | 3 =>
        EmuM.ok (Operand.new dsize AddrMode.PositiveLiteral dtype etype none descriptor_byte, s)
      | 4 =>
        match r with
        | 15 =>
          EmuM.bind (readWord32u bus s (addr + 1) AccessCode.OperandFetch) (fun ws =>
            EmuM.ok (Operand.new (dsize + 4) AddrMode.WordImmediate dtype etype none ws.1, ws.2))
        | _ =>
          EmuM.ok (Operand.new dsize AddrMode.Register dtype etype (some r) 0, s)
      | 5 =>
        match r with
        | 15 =>
          EmuM.bind (readHalf16u bus s (addr + 1) AccessCode.OperandFetch) (fun hs =>
            EmuM.ok (Operand.new (dsize + 2) AddrMode.HalfwordImmediate dtype etype none hs.1,
              hs.2))
        | 11 => illOp
        | _ =>
          EmuM.ok (Operand.new dsize AddrMode.RegisterDeferred dtype etype (some r) 0, s)
      | 6 =>
        match r with
        | 15 =>
          EmuM.bind (readByte8 bus s (addr + 1) AccessCode.OperandFetch) (fun vs =>
            EmuM.ok (Operand.new (dsize + 1) AddrMode.ByteImmediate dtype etype none vs.1, vs.2))
        | _ =>
          EmuM.ok (Operand.new dsize AddrMode.FPShortOffset dtype etype (some R_FP) r, s)
      | 7 =>
        match r with
        | 15 =>
          EmuM.bind (readWord32u bus s (addr + 1) AccessCode.OperandFetch) (fun ws =>
            EmuM.ok (Operand.new (dsize + 4) AddrMode.Absolute dtype etype none ws.1, ws.2))
        | _ =>
          EmuM.ok (Operand.new dsize AddrMode.APShortOffset dtype etype (some R_AP) r, s)
      | 8 =>
        match r with
        | 11 => illOp
        | _ =>
          EmuM.bind (readWord32u bus s (addr + 1) AccessCode.OperandFetch) (fun ws =>
            EmuM.ok (Operand.new (dsize + 4) AddrMode.WordDisplacement dtype etype (some r) ws.1,
              ws.2))
      | 9 =>
        match r with
        | 11 => illOp
        | _ =>
          EmuM.bind (readWord32u bus s (addr + 1) AccessCode.OperandFetch) (fun ws =>
            EmuM.ok (Operand.new (dsize + 4) AddrMode.WordDisplacementDeferred dtype etype
              (some r) ws.1, ws.2))
      | 10 =>
        match r with
        | 11 => illOp
        | _ =>
          EmuM.bind (readHalf16u bus s (addr + 1) AccessCode.OperandFetch) (fun hs =>
            EmuM.ok (Operand.new (dsize + 2) AddrMode.HalfwordDisplacement dtype etype
              (some r) hs.1, hs.2))
      | 11 =>
        match r with
        | 11 => illOp
        | _ =>
          EmuM.bind (readHalf16u bus s (addr + 1) AccessCode.OperandFetch) (fun hs =>
            EmuM.ok (Operand.new (dsize + 2) AddrMode.HalfwordDisplacementDeferred dtype etype
              (some r) hs.1, hs.2))
      | 12 =>
        match r with
        | 11 => illOp
        | _ =>
          EmuM.bind (readByte8 bus s (addr + 1) AccessCode.OperandFetch) (fun vs =>
            EmuM.ok (Operand.new (dsize + 1) AddrMode.ByteDisplacement dtype etype
              (some r) vs.1, vs.2))
      | 13 =>
        match r with
        | 11 => illOp
        | _ =>
          EmuM.bind (readByte8 bus s (addr + 1) AccessCode.OperandFetch) (fun vs =>
            EmuM.ok (Operand.new (dsize + 1) AddrMode.ByteDisplacementDeferred dtype etype
              (some r) vs.1, vs.2))
      | 14 =>
        match r with
        | 0 => decode_operand_descriptor bus dtype (some Data.UWord) s (addr + 1) true fuel
        | 2 => decode_operand_descriptor bus dtype (some Data.UHalf) s (addr + 1) true fuel
        | 3 => decode_operand_descriptor bus dtype (some Data.Byte) s (addr + 1) true fuel
        | 4 => decode_operand_descriptor bus dtype (some Data.Word) s (addr + 1) true fuel
        | 6 => decode_operand_descriptor bus dtype (some Data.Half) s (addr + 1) true fuel
        | 7 => decode_operand_descriptor bus dtype (some Data.SByte) s (addr + 1) true fuel
        | _ => illOp
      | 15 =>
        EmuM.ok (Operand.new 1 AddrMode.NegativeLiteral dtype etype none descriptor_byte, s)
      | _ => illOp)

/-- Cpu::decode_operand from cpu.rs: dispatch on the operand role. -/
def decode_operand {σ : Type} (bus : BusOps σ) (mnm : Mnemonic) (fuel : Nat) (ot : OpType)
    (etype : Option Data) (s : σ) (addr : Nat) : EmuM (Operand × σ) :=
  match ot with
  | OpType.Lit => decode_operand_literal bus mnm s addr
  | OpType.Src => decode_operand_descriptor bus mnm.dtype etype s addr false fuel
  | OpType.Dest => decode_operand_descriptor bus mnm.dtype etype s addr false fuel

/-- The operand loop of Cpu::decode_instruction from cpu.rs: after each
operand, the inherited expanded type becomes that operand's expanded type and
the address advances by the operand's size. -/
def decode_operands {σ : Type} (bus : BusOps σ) (mnm : Mnemonic) (fuel : Nat) :
    List OpType → Option Data → σ → Nat → EmuM (List Operand × σ)
  | [], _, s, _ => EmuM.ok ([], s)
  | ot :: rest, etype, s, addr =>
    EmuM.bind (decode_operand bus mnm fuel ot etype s addr) (fun os =>
      EmuM.bind (decode_operands bus mnm fuel rest os.1.expanded_type os.2 (addr + os.1.size))
        (fun rs => EmuM.ok (os.1 :: rs.1, rs.2)))

/-- Sum of the size fields of a list of operands. -/
def sumSizes (ops : List Operand) : Nat := (ops.map Operand.size).sum

/-- Cpu::decode_instruction from cpu.rs: read the byte at PC; on 0x30, read a
second byte and use it to index the primary OPCODES table (the source indexes
OPCODES, not HALFWORD_OPCODES, here); decode the operand list; report
bytes as the operand sizes plus one. -/
def decode_instruction {σ : Type} (bus : BusOps σ) (fuel : Nat) (c : Cpu) (s : σ) :
    EmuM (DecodedInstruction × σ) :=
  let a0 := c.getR R_PC
  EmuM.bind (readByte8 bus s a0 AccessCode.InstrFetch) (fun b1s =>
    if b1s.1 = 0x30 then
      EmuM.bind (readByte8 bus b1s.2 (a0 + 1) AccessCode.InstrFetch) (fun b2s =>
        let mnm := opcodeAt b2s.1
        EmuM.bind (decode_operands bus mnm fuel mnm.ops none b2s.2 (a0 + 2)) (fun rs =>
          EmuM.ok ({ mnemonic := mnm, bytes := sumSizes rs.1 + 1, operands := rs.1 }, rs.2)))
    else
      let mnm := opcodeAt b1s.1
      EmuM.bind (decode_operands bus mnm fuel mnm.ops none b1s.2 (a0 + 1)) (fun rs =>
        EmuM.ok ({ mnemonic := mnm, bytes := sumSizes rs.1 + 1, operands := rs.1 }, rs.2)))

/-- Cpu::step from cpu.rs: decode at PC, then dispatch on the opcode. Only
the three MOV opcodes are implemented; everything else raises IllegalOpcode.
Indexing operands 0 and 1 of a decoded instruction with fewer than two
operands would be a Rust panic, modelled by EmuM.abort. -/
def Cpu.step {σ : Type} (bus : BusOps σ) (fuel : Nat) (c : Cpu) (s : σ) : EmuM (Cpu × σ) :=
  EmuM.bind (decode_instruction bus fuel c s) (fun is =>
    match is.1.mnemonic.opcode with
    | 0x84 | 0x86 | 0x87 =>
      match is.1.operands with
      | o0 :: o1 :: _ =>
        EmuM.bind (Cpu.read_op bus c is.2 o0) (fun vs =>
          Cpu.write_op bus c vs.2 o1 vs.1)
      | _ => EmuM.abort
    | _ => illOp)

/-- A full machine state: the CPU register file plus the bus-device state. -/
structure Machine (σ : Type) where
  cpu : Cpu
  bus : σ

/-- Cpu::read_op at machine level: the Rust call site passes the CPU by
shared reference and the bus by mutable reference, so the resulting machine
carries the unchanged register file together with the possibly-mutated bus
state. -/
def Machine.read_op {σ : Type} (ops : BusOps σ) (m : Machine σ) (op : Operand) :
    EmuM (Nat × Machine σ) :=
  match Cpu.read_op ops m.cpu m.bus op with
  | none => none
  | some (Except.error e) => some (Except.error e)
  | some (Except.ok (v, s2)) => some (Except.ok (v, { cpu := m.cpu, bus := s2 }))

/-- Modelled from the spec (sections 4.1 and 6): a RAM-backed bus whose byte
at address a is f a, truncated to u8; multi-byte reads are little-endian;
reads have no device side effects and writes are accepted and discarded.
The mem and bus crates of the repository are not under src, so this concrete
instance follows the specification text; it is used only to run the embedded
CPU on concrete programs. Alignment checking is omitted. -/
def pureBus (f : Nat → Nat) : BusOps Unit :=
  { read_byte := fun s a _ => Except.ok (f a % 256, s)
    read_half := fun s a _ => Except.ok (f a % 256 + 256 * (f (a + 1) % 256), s)
    read_half_unaligned := fun s a _ => Except.ok (f a % 256 + 256 * (f (a + 1) % 256), s)
    read_word := fun s a _ =>
      Except.ok (f a % 256 + 256 * (f (a + 1) % 256) + 65536 * (f (a + 2) % 256)
        + 16777216 * (f (a + 3) % 256), s)
    read_word_unaligned := fun s a _ =>
      Except.ok (f a % 256 + 256 * (f (a + 1) % 256) + 65536 * (f (a + 2) % 256)
        + 16777216 * (f (a + 3) % 256), s)
    write_byte := fun s _ _ => Except.ok s
    write_half := fun s _ _ => Except.ok s
    write_word := fun s _ _ => Except.ok s }

/-- Modelled from the spec (section 4.1): a word-granular bus used to drive
the reset sequence on concrete values; the word at address a is g a and
byte or half accesses are not served. -/
def wordBus (g : Nat → Nat) : BusOps Unit :=
  { read_byte := fun _ _ _ => Except.error BusError.NoDevice
    read_half := fun _ _ _ => Except.error BusError.NoDevice
    read_half_unaligned := fun _ _ _ => Except.error BusError.NoDevice
    read_word := fun s a _ => Except.ok (g a, s)
    read_word_unaligned := fun s a _ => Except.ok (g a, s)
    write_byte := fun s _ _ => Except.ok s
    write_half := fun s _ _ => Except.ok s
    write_word := fun s _ _ => Except.ok s }

/-- The expanded-type chaining discipline actually implemented by the decode
loop, stated against the instruction stream f: a literal-role operand
carries no expanded type; a source or destination operand whose descriptor
starts with an Expanded (m equal 14) byte carries some expanded type; any
other source or destination operand inherits exactly the expanded type of
the preceding operand (none for the first). -/
def expandedChain (f : Nat → Nat) : List OpType → Option Data → Nat → List Operand → Prop
  | [], _, _, ops => ops = []
  | ot :: ots, e, a, ops =>
    match ops with
    | [] => False
    | o :: os =>
      (match ot with
       | OpType.Lit => o.expanded_type = none
       | _ =>
         if nibbleHigh (f a % 256) = 14 then o.expanded_type.isSome = true
         else o.expanded_type = e) ∧
      expandedChain f ots o.expanded_type (a + o.size) os

/-
  The DUART device, from duart.rs.
-/

def START_ADDR : Nat := 0x200000

/-- END_ADDR from duart.rs, transcribed exactly: 0x2000040, not 0x200040. -/
def END_ADDR : Nat := 0x2000040

/-- Membership in the half-open ADDRESS_RANGE of duart.rs. -/
def duartContains (a : Nat) : Bool := decide (START_ADDR ≤ a ∧ a < END_ADDR)

/-- DELAY_RATES_A from duart.rs: 13 entries, selected when ACR bit 7 is 0. -/
def DELAY_RATES_A : List Nat := [
  200000000, 90909096, 74074072, 50000000,
  33333336, 16666668, 8333334, 9523810,
  4166667, 2083333, 1388888, 1041666, 260416
]

/-- DELAY_RATES_B from duart.rs: 13 entries, selected when ACR bit 7 is 1. -/
def DELAY_RATES_B : List Nat := [
  133333344, 90909096, 74074072, 66666672,
  33333336, 16666668, 8333334, 5000000,
  4166667, 205338, 5555555, 1041666, 520833
]

/-- Register offsets from duart.rs. -/
def MR12A : Nat := 0x03
def CSRA : Nat := 0x07
def CRA : Nat := 0x0b
def THRA : Nat := 0x0f
def IPCR_ACR : Nat := 0x13
def ISR_MASK : Nat := 0x17
def MR12B : Nat := 0x23
def CSRB : Nat := 0x27
def CRB : Nat := 0x2b
def THRB : Nat := 0x2f
def IP_OPCR : Nat := 0x37

/-- Port configuration, status, command and interrupt bit constants from
duart.rs. -/
def CNF_ETX : Nat := 0x01
def CNF_ERX : Nat := 0x02
def STS_RXR : Nat := 0x01
def STS_TXR : Nat := 0x04
def STS_TXE : Nat := 0x08
def STS_OER : Nat := 0x10
def STS_PER : Nat := 0x20
def STS_FER : Nat := 0x40
def CMD_ERX : Nat := 0x01
def CMD_DRX : Nat := 0x02
def CMD_ETX : Nat := 0x04
def CMD_DTX : Nat := 0x08
def ISTS_TAI : Nat := 0x01
def ISTS_RAI : Nat := 0x02
def ISTS_RBI : Nat := 0x20
def ISTS_IPC : Nat := 0x80
def KEYBOARD_INT : Nat := 0x04
def MOUSE_BLANK_INT : Nat := 0x02
def TX_INT : Nat := 0x10
def RX_INT : Nat := 0x20

/-- Per-port state from duart.rs. Durations are nanosecond counts and
Instants are abstract nanosecond timestamps. -/
structure Port where
  mode : Fin 2 → Nat
  stat : Nat
  conf : Nat
  rx_data : Nat
  tx_data : Nat
  mode_ptr : Nat
  rx_pending : Bool
  tx_pending : Bool
  char_delay : Nat
  next_rx : Nat
  next_tx : Nat

/-- Duart state from duart.rs. The boxed transmit callback is host-side
state with no register-visible content and is omitted; it is only invoked
by the service tick, which is not modelled here. -/
structure Duart where
  port0 : Port
  port1 : Port
  acr : Nat
  ipcr : Nat
  inprt : Nat
  istat : Nat
  imr : Nat
  ivec : Nat
  last_vblank : Nat

/-- The initial per-port state built by Duart::new, with Instant::now as the
abstract timestamp now. -/
def Port.new (now : Nat) : Port :=
  { mode := fun _ => 0, stat := 0, conf := 0, rx_data := 0, tx_data := 0,
    mode_ptr := 0, rx_pending := false, tx_pending := false,
    char_delay := 1000000, next_rx := now, next_tx := now }

/-- Duart::new from duart.rs. -/
def Duart.new (now : Nat) : Duart :=
  { port0 := Port.new now, port1 := Port.new now, acr := 0, ipcr := 0x40,
    inprt := 0xb, istat := 0, imr := 0, ivec := 0, last_vblank := now }

/-- Write to one of the two mode registers: store at the mode pointer and
advance it modulo 2. The array access panics (none) if the pointer is ever
outside 0..1, which the source maintains as an invariant. -/
def Port.setMode (p : Port) (v : Nat) : Option Port :=
  if p.mode_ptr < 2 then
    some { p with mode := fun j => if j.val = p.mode_ptr then v else p.mode j,
                  mode_ptr := (p.mode_ptr + 1) % 2 }
  else none

/-- Duart::handle_command from duart.rs, acting on the port selected by the
PORT_0 or PORT_1 index. An index outside 0..1 would be a Rust panic. -/
def Duart.handle_command (d : Duart) (cmdIn : Nat) (port : Nat) : Option Duart :=
  let cmd := cmdIn % 256
  if cmd = 0 then some d
  else if port < 2 then
    let ctx := if port = 0 then d.port0 else d.port1
    -- Enable or disable transmitter
    let txStep :
        Port × Nat × Nat :=
      if cmd &&& CMD_DTX ≠ 0 then
        ({ ctx with conf := ctx.conf &&& not8 CNF_ETX,
                    stat := (ctx.stat &&& not8 STS_TXR) &&& not8 STS_TXE },
         (if port = 0 then d.ivec &&& not8 TX_INT else d.ivec),
         (if port = 0 then d.istat &&& not8 ISTS_TAI else d.istat))
      else if cmd &&& CMD_ETX ≠ 0 then
        ({ ctx with conf := ctx.conf ||| CNF_ETX,
                    stat := (ctx.stat ||| STS_TXR) ||| STS_TXE },
         (if port = 0 then d.ivec ||| TX_INT else d.ivec),
         (if port = 0 then d.istat ||| ISTS_TAI else d.istat))
      else (ctx, d.ivec, d.istat)
    let ctx := txStep.1
    let ivec := txStep.2.1
    let istat := txStep.2.2
    -- Enable or disable receiver
    let rxStep : Port × Nat × Nat :=
      if cmd &&& CMD_DRX ≠ 0 then
        ({ ctx with conf := ctx.conf &&& not8 CNF_ERX, stat := ctx.stat &&& not8 STS_RXR },
         (if port = 0 then ivec &&& not8 RX_INT else ivec &&& not8 KEYBOARD_INT),
         (if port = 0 then istat &&& not8 ISTS_RAI else istat &&& not8 ISTS_RBI))
      else if cmd &&& CMD_ERX ≠ 0 then
        ({ ctx with conf := ctx.conf ||| CNF_ERX, stat := ctx.stat ||| STS_RXR },
         ivec, istat)
      else (ctx, ivec, istat)
    let ctx := rxStep.1
    let ivec := rxStep.2.1
    let istat := rxStep.2.2
    -- Extra commands, selected by bits 6:4
    let ctx :=
      match (cmd >>> 4) &&& 7 with
      | 1 => { ctx with mode_ptr := 0 }
      | 2 => { ctx with stat := ctx.stat ||| STS_RXR, conf := ctx.conf ||| CNF_ERX }
      | 3 => { ctx with stat := (ctx.stat ||| STS_TXR) ||| STS_TXE,
                        conf := ctx.conf &&& not8 CNF_ETX }
      | 4 => { ctx with stat := ctx.stat &&& not8 ((STS_FER ||| STS_PER) ||| STS_OER) }
      | _ => ctx
    some (if port = 0 then { d with port0 := ctx, ivec := ivec, istat := istat }
          else { d with port1 := ctx, ivec := ivec, istat := istat })
  else none

/-- The write dispatch of the Device implementation for Duart in duart.rs.
The now argument models Instant::now. The offset is the address minus
START_ADDR cast to u8, and an address below START_ADDR models the panicking
usize subtraction of a debug build. A missing entry of a delay-rate table
(baud index 13, 14 or 15) is a panicking array access, hence none. -/
def Duart.write_byte (d : Duart) (now : Nat) (address : Nat) (valIn : Nat) : Option Duart :=
  if address < START_ADDR then none
  else
    let off := (address - START_ADDR) % 256
    let val := valIn % 256
    if off = MR12A then
      match d.port0.setMode val with
      | some p => some { d with port0 := p }
      | none => none
    else if off = CSRA then
      -- Set the baud rate.
      let baud_bits := (val >>> 4) &&& 0xf
      let delay :=
        if d.acr &&& 0x80 = 0 then DELAY_RATES_A.get? baud_bits
        else DELAY_RATES_B.get? baud_bits
      match delay with
      | some ns => some { d with port0 := { d.port0 with char_delay := ns } }
      | none => none
    else if off = CRA then
      d.handle_command val 0
    else if off = THRA then
      let p := { d.port0 with
        tx_data := val
        next_tx := now + d.port0.char_delay
        tx_pending := true
        stat := d.port0.stat &&& not8 (STS_TXE ||| STS_TXR) }
      some { d with
        port0 := p
        ivec := d.ivec &&& not8 TX_INT
        istat := d.istat &&& not8 ISTS_TAI }
    else if off = IPCR_ACR then
      some { d with acr := val }
    else if off = ISR_MASK then
      some { d with imr := val }
    else if off = MR12B then
      match d.port1.setMode val with
      | some p => some { d with port1 := p }
      | none => none
    else if off = CRB then
      d.handle_command val 1
    else if off = THRB then
      let p := { d.port1 with
        tx_data := val
        stat := if val = 0x02 then STS_RXR ||| STS_PER else d.port1.stat }
      some { d with port1 := p }
    else if off = IP_OPCR then
      some d
    else
      some d

/-- Instruction stream with a 0x30-prefixed half-word opcode, MVERNO. -/
def progC1 : Nat → Nat := fun a => [0x30, 0x09].getD a 0

/-- Instruction stream with a 0x30 prefix whose second byte is outside the
half-word opcode set. -/
def progC2 : Nat → Nat := fun a => [0x30, 0x00].getD a 0

/-- MOVB with an SByte expansion prefix on the first (register) operand and a
plain register second operand. -/
def progC3 : Nat → Nat := fun a => [0x87, 0xE7, 0x40, 0x41].getD a 0

/-- An SByte expansion prefix followed by a negative-literal descriptor. -/
def progC6 : Nat → Nat := fun a => [0xE7, 0xFF].getD a 0

/-- Word contents for a concrete reset: the PCB pointer at 0x80 and the
PSW (with the I bit set), PC and SP words of the process control block. -/
def gC7 : Nat → Nat := fun a =>
  if a = 0x80 then 0x1000
  else if a = 0x1000 then 0x80
  else if a = 0x1004 then 0x2222
  else if a = 0x1008 then 0x3333
  else 0

/-- MOVB from register 0 to register 1. -/
def progC8 : Nat → Nat := fun a => [0x87, 0x40, 0x41].getD a 0

/-- A CPU whose register 0 holds 0xff, as in the register-read test of the
repository. -/
def cpuC9 : Cpu := Cpu.new.setR 0 0xff

/-
  Theorems.
-/

theorem EmuM.bind_ok {α β : Type} (a : α) (f : α → EmuM β) :
    EmuM.bind (EmuM.ok a) f = f a := rfl

theorem EmuM.bind_err {α β : Type} (e : CpuError) (f : α → EmuM β) :
    EmuM.bind (EmuM.err e) f = EmuM.err e := rfl

theorem EmuM.bind_abort {α β : Type} (f : α → EmuM β) :
    EmuM.bind (EmuM.abort) f = EmuM.abort := rfl

theorem EmuM.ok_ne_err {α : Type} (a : α) (e : CpuError) : EmuM.ok a ≠ EmuM.err e := by
  intro h
  injection h with h2
  exact Except.noConfusion h2

theorem EmuM.ok_ne_abort {α : Type} (a : α) : EmuM.ok a ≠ EmuM.abort := by
  intro h
  exact Option.noConfusion h

theorem EmuM.ok_inj {α : Type} {a b : α} (h : EmuM.ok a = EmuM.ok b) : a = b := by
  injection h with h2
  injection h2

theorem Cpu.getR_setR_same (c : Cpu) (i : Nat) (v : Nat) (h : i < 16) :
    (c.setR i v).getR i = v := by
  simp [Cpu.getR, Cpu.setR, h]

theorem Cpu.getR_setR_other (c : Cpu) (i j : Nat) (v : Nat) (h : j ≠ i) :
    (c.setR i v).getR j = c.getR j := by
  simp only [Cpu.getR, Cpu.setR]
  split
  · simp [h]
  · rfl

/-- C1: for the 0x30-prefixed half-word opcode stream 30 09, decoding
consumes two opcode bytes and no operand bytes, yet the bytes field of the
decoded instruction is 1, not the 2 the claim requires: decode_instruction
always reports the operand sizes plus one, ignoring the second opcode byte. -/
theorem claim1_bytes_eval :
    decode_instruction (pureBus progC1) 1 Cpu.new () =
      EmuM.ok (DecodedInstruction.mk (mn 0x09 Data.None "???" []) 1 [], ()) ∧
    2 + sumSizes [] ≠ 1 :=
  ⟨rfl, by decide⟩

/-- C2: decode_instruction indexes the primary OPCODES table with the byte
after a 0x30 prefix and never consults HALFWORD_OPCODES: the stream 30 00,
whose second byte is outside the 11-entry half-word set, decodes successfully
to the primary entry for 0x00 instead of raising IllegalOpcode. The half-word
table does have exactly the 11 claimed opcode bytes. -/
theorem claim2_halfword_lookup_eval :
    decode_instruction (pureBus progC2) 1 Cpu.new () =
      EmuM.ok (DecodedInstruction.mk (mn 0x00 Data.None "halt" []) 1 [], ()) ∧
    HALFWORD_OPCODES.map Mnemonic.opcode =
      [0x09, 0x0d, 0x13, 0x19, 0x1f, 0x2f, 0x3f, 0x45, 0x61, 0xac, 0xc8] ∧
    ¬ (0x00 ∈ HALFWORD_OPCODES.map Mnemonic.opcode) :=
  ⟨rfl, rfl, by decide⟩

/-- C4 counterexample: writing 0xFF to CSRA selects baud index 15, which is
outside the 13-entry DELAY_RATES_A table; the write panics (none) instead of
setting any delay, refuting the claimed 260416 outcome for value 0xFF. -/
theorem claim4_csra_ff_panic :
    (Duart.new 0).write_byte 0 0x200007 0xFF = none ∧ DELAY_RATES_A.length = 13 :=
  ⟨rfl, rfl⟩

/-- C4 (amended): writing 0xCF (baud nibble 12) to CSRA at 0x200007 while ACR
bit 7 is clear sets the port-0 per-character delay to 260416 nanoseconds. -/
theorem claim4_csra_delay (d : Duart) (now : Nat) (h : d.acr &&& 0x80 = 0) :
    ∃ d2, d.write_byte now 0x200007 0xCF = some d2 ∧ d2.port0.char_delay = 260416 := by
  refine ⟨{ d with port0 := { d.port0 with char_delay := 260416 } }, ?_, rfl⟩
  unfold Duart.write_byte
  norm_num [START_ADDR, MR12A, CSRA, h, DELAY_RATES_A]
  have hb : (207 : Nat) >>> 4 &&& 15 = 12 := by decide
  rw [hb]
  rfl

/-- C4 witness: the amended theorem applied to a freshly constructed DUART,
whose ACR is 0. -/
theorem claim4_witness :
    ∃ d2, (Duart.new 0).write_byte 5 0x200007 0xCF = some d2 ∧
      d2.port0.char_delay = 260416 :=
  claim4_csra_delay (Duart.new 0) 5 rfl

/-- C5: the device address range of duart.rs starts at 0x200000 but ends at
0x2000040 (one hexadecimal digit too many), so the byte at 0x200040, which
the claim places outside the device, is inside the range, as is every
address up to 0x200003F. -/
theorem claim5_address_range_eval :
    duartContains 0x200000 = true ∧
    duartContains 0x200040 = true ∧
    duartContains 0x1ffffff = true ∧
    duartContains 0x2000040 = false ∧
    END_ADDR = 0x2000040 :=
  ⟨rfl, rfl, rfl, rfl, rfl⟩

/-- C6: the NegativeLiteral arm of decode_operand_descriptor hardcodes size
1 instead of using the recur-dependent descriptor size: decoding the
SByte-expanded negative literal E7 FF reports size 1, exactly the same as
decoding the bare negative literal FF, not one greater as claimed (and as
the dsize comment in the source intends). -/
theorem claim6_negative_literal_size_eval :
    decode_operand_descriptor (pureBus progC6) Data.Byte none () 0 false 2 =
      EmuM.ok (Operand.new 1 AddrMode.NegativeLiteral Data.Byte (some Data.SByte) none 0xFF,
        ()) ∧
    decode_operand_descriptor (pureBus progC6) Data.Byte none () 1 false 2 =
      EmuM.ok (Operand.new 1 AddrMode.NegativeLiteral Data.Byte none none 0xFF, ()) ∧
    (1 : Nat) ≠ 1 + 1 :=
  ⟨rfl, rfl, by decide⟩

/-- C7: reset reads the word at physical 0x80 into PCBP, the word at PCBP
into PSW, the words at PCBP plus 4 and PCBP plus 8 into PC and SP, all with
the AddressFetch access code; if the I bit of the loaded PSW is set it is
cleared and PCBP advances by 12; finally the ISC field of PSW is set to 3. -/
theorem claim7_reset {σ : Type} (bus : BusOps σ) (c : Cpu) (s s1 s2 s3 s4 : σ)
    (w0 w1 w2 w3 : Nat)
    (h0 : bus.read_word s 0x80 AccessCode.AddressFetch = Except.ok (w0, s1))
    (h1 : bus.read_word s1 (w0 % W32) AccessCode.AddressFetch = Except.ok (w1, s2))
    (h2 : bus.read_word s2 (w0 % W32 + 4) AccessCode.AddressFetch = Except.ok (w2, s3))
    (h3 : bus.read_word s3 (w0 % W32 + 8) AccessCode.AddressFetch = Except.ok (w3, s4)) :
    ∃ c2, Cpu.reset bus c s = EmuM.ok (c2, s4) ∧
      c2.getR R_PC = w2 % W32 ∧
      c2.getR R_SP = w3 % W32 ∧
      (w1 % W32 &&& F_I ≠ 0 →
        c2.getR R_PCBP = (w0 % W32 + 12) % W32 ∧
        c2.getR R_PSW = ((w1 % W32 &&& not32 F_I) &&& not32 F_ISC) ||| 0x18) ∧
      (w1 % W32 &&& F_I = 0 →
        c2.getR R_PCBP = w0 % W32 ∧
        c2.getR R_PSW = (w1 % W32 &&& not32 F_ISC) ||| 0x18) := by
  unfold Cpu.reset readWord32
  rw [h0]
  simp only [liftBus, EmuM.bind_ok]
  rw [Cpu.getR_setR_same c R_PCBP (w0 % W32) (by norm_num [R_PCBP])]
  rw [h1]
  simp only [liftBus, EmuM.bind_ok]
  rw [Cpu.getR_setR_other _ R_PSW R_PCBP _ (by norm_num [R_PSW, R_PCBP]),
      Cpu.getR_setR_same c R_PCBP (w0 % W32) (by norm_num [R_PCBP])]
  rw [h2]
  simp only [liftBus, EmuM.bind_ok]
  rw [Cpu.getR_setR_other _ R_PC R_PCBP _ (by norm_num [R_PC, R_PCBP]),
      Cpu.getR_setR_other _ R_PSW R_PCBP _ (by norm_num [R_PSW, R_PCBP]),
      Cpu.getR_setR_same c R_PCBP (w0 % W32) (by norm_num [R_PCBP])]
  rw [h3]
  simp only [liftBus, EmuM.bind_ok]
  have h24 : ((3 : Nat) &&& 15) <<< 3 = 24 := by decide
  refine ⟨_, rfl, ?_, ?_, ?_, ?_⟩ <;>
    by_cases hI : w1 % W32 &&& F_I ≠ 0 <;>
      simp_all [Cpu.set_isc, Cpu.getR_setR_same, Cpu.getR_setR_other,
        R_FP, R_AP, R_PSW, R_SP, R_PCBP, R_PC]

/-- C7 witness: reset on a concrete word bus with the I bit set in the
loaded PSW; PCBP ends at 0x100c and PSW at 0x18 (I cleared, ISC set to 3). -/
theorem claim7_witness :
    ∃ c2, Cpu.reset (wordBus gC7) Cpu.new () = EmuM.ok (c2, ()) ∧
      c2.getR R_PC = 0x2222 ∧
      c2.getR R_SP = 0x3333 ∧
      c2.getR R_PCBP = 0x100c ∧
      c2.getR R_PSW = 0x18 := by
  obtain ⟨c2, hres, hpc, hsp, hI, _⟩ :=
    claim7_reset (wordBus gC7) Cpu.new () () () () () 0x1000 0x80 0x2222 0x3333
      rfl rfl rfl rfl
  obtain ⟨hpcbp, hpsw⟩ := hI (by decide)
  refine ⟨c2, hres, by simpa using hpc, by simpa using hsp, by simpa using hpcbp, ?_⟩
  rw [hpsw]
  decide

/-- C8: step decodes the instruction at PC and dispatches on the opcode: for
0x84, 0x86 and 0x87 it writes the value read from the first operand to the
second operand; every other successfully decoded opcode raises
IllegalOpcode. -/
theorem claim8_step_dispatch {σ : Type} (bus : BusOps σ) (fuel : Nat) (c : Cpu) (s s1 : σ)
    (instr : DecodedInstruction)
    (h : decode_instruction bus fuel c s = EmuM.ok (instr, s1)) :
    ((instr.mnemonic.opcode = 0x84 ∨ instr.mnemonic.opcode = 0x86 ∨
        instr.mnemonic.opcode = 0x87) →
      ∀ o0 o1 rest, instr.operands = o0 :: o1 :: rest →
        Cpu.step bus fuel c s =
          EmuM.bind (Cpu.read_op bus c s1 o0)
            (fun vs => Cpu.write_op bus c vs.2 o1 vs.1)) ∧
    (instr.mnemonic.opcode ≠ 0x84 → instr.mnemonic.opcode ≠ 0x86 →
      instr.mnemonic.opcode ≠ 0x87 → Cpu.step bus fuel c s = illOp) := by
  constructor
  · rintro hop o0 o1 rest hops
    unfold Cpu.step
    rw [h, EmuM.bind_ok]
    rcases hop with h1 | h1 | h1 <;> simp only [h1, hops]
  · intro h84 h86 h87
    unfold Cpu.step
    rw [h, EmuM.bind_ok]
    split <;> simp_all

/-- C8 witness: the MOVB program 87 40 41 steps to the read-then-write
composition over its two register operands. -/
theorem claim8_witness :
    Cpu.step (pureBus progC8) 4 Cpu.new () =
      EmuM.bind
        (Cpu.read_op (pureBus progC8) Cpu.new ()
          (Operand.new 1 AddrMode.Register Data.Byte none (some 0) 0))
        (fun vs =>
          Cpu.write_op (pureBus progC8) Cpu.new vs.2
            (Operand.new 1 AddrMode.Register Data.Byte none (some 1) 0) vs.1) :=
  (claim8_step_dispatch (pureBus progC8) 4 Cpu.new () ()
    (DecodedInstruction.mk (mn 0x87 Data.Byte "MOVB" [OpType.Src, OpType.Dest]) 3
      [Operand.new 1 AddrMode.Register Data.Byte none (some 0) 0,
       Operand.new 1 AddrMode.Register Data.Byte none (some 1) 0]) rfl).1
    (Or.inr (Or.inr rfl)) _ _ [] rfl

/-- C9: for a Register-mode operand with register index r, read_op returns
the register value reinterpreted through the effective data width: Word and
UWord give the raw 32 bits, UHalf zero-extends the low 16, Half sign-extends
the low 16, Byte zero-extends the low 8, SByte sign-extends the low 8, and
any other width raises IllegalOpcode. -/
theorem claim9_read_op_register {σ : Type} (bus : BusOps σ) (c : Cpu) (s : σ) (op : Operand)
    (r : Nat) (hm : op.mode = AddrMode.Register) (hr : op.register = some r)
    (hlt : r < 16) :
    Cpu.read_op bus c s op =
      (match op.dataType with
       | Data.Word => EmuM.ok (c.getR r, s)
       | Data.UWord => EmuM.ok (c.getR r, s)
       | Data.Half => EmuM.ok (sign_extend_halfword (c.getR r), s)
       | Data.UHalf => EmuM.ok (c.getR r % 65536, s)
       | Data.Byte => EmuM.ok (c.getR r % 256, s)
       | Data.SByte => EmuM.ok (sign_extend_byte (c.getR r), s)
       | Data.None => illOp) := by
  unfold Cpu.read_op
  simp only [hm, hr, hlt, if_true]

/-- C9 witness: reading register 0 holding 0xff through an SByte expanded
width sign-extends to 0xffffffff, as in the register-read test of the
repository. -/
theorem claim9_witness :
    Cpu.read_op (pureBus progC8) cpuC9 ()
      (Operand.new 2 AddrMode.Register Data.Byte (some Data.SByte) (some 0) 0) =
      EmuM.ok (0xffffffff, ()) :=
  claim9_read_op_register (pureBus progC8) cpuC9 ()
    (Operand.new 2 AddrMode.Register Data.Byte (some Data.SByte) (some 0) 0) 0
    rfl rfl (by norm_num)

/-- C10: read_op never changes the CPU register file: whenever the
machine-level read returns a value, the resulting machine carries the same
registers, PSW and PC included; only the bus-device state may differ. -/
theorem claim10_read_op_frame {σ : Type} (ops : BusOps σ) (m : Machine σ) (op : Operand) :
    ∀ v m2, Machine.read_op ops m op = EmuM.ok (v, m2) → m2.cpu = m.cpu := by
  intro v m2 h
  unfold Machine.read_op at h
  split at h
  · exact Option.noConfusion h
  · injection h with h2
    exact Except.noConfusion h2
  · injection h with h2
    injection h2 with h3
    injection h3 with hv hm
    rw [← hm]

/-- C10 witness: the frame theorem applied to a concrete machine and a
register operand. -/
theorem claim10_witness :
    ∃ m2, Machine.read_op (pureBus progC8) (Machine.mk Cpu.new ())
        (Operand.new 1 AddrMode.Register Data.Byte none (some 0) 0) =
        EmuM.ok (0, m2) ∧ m2.cpu = Cpu.new := by
  refine ⟨Machine.mk Cpu.new (), rfl, ?_⟩
  exact claim10_read_op_frame (pureBus progC8) (Machine.mk Cpu.new ())
    (Operand.new 1 AddrMode.Register Data.Byte none (some 0) 0) 0
    (Machine.mk Cpu.new ()) rfl

theorem EmuM.bind_eq_ok {α β : Type} {x : EmuM α} {f : α → EmuM β} {b : β}
    (h : EmuM.bind x f = EmuM.ok b) : ∃ a, x = EmuM.ok a ∧ f a = EmuM.ok b := by
  cases hx : x with
  | none =>
    rw [hx] at h
    have h2 : (none : Option (Except CpuError β)) = some (Except.ok b) := h
    exact Option.noConfusion h2
  | some ex =>
    cases ex with
    | error e =>
      rw [hx] at h
      have h2 : (some (Except.error e) : Option (Except CpuError β)) = some (Except.ok b) := h
      injection h2 with h3
      exact Except.noConfusion h3
    | ok a =>
      rw [hx] at h
      exact ⟨a, rfl, h⟩

theorem readByte8_pureBus (f : Nat → Nat) (s : Unit) (a : Nat) (ac : AccessCode) :
    readByte8 (pureBus f) s a ac = EmuM.ok (f a % 256, ()) := by
  have hm : f a % 256 % 256 = f a % 256 := Nat.mod_mod_of_dvd _ dvd_rfl
  calc readByte8 (pureBus f) s a ac = EmuM.ok (f a % 256 % 256, ()) := rfl
    _ = EmuM.ok (f a % 256, ()) := by rw [hm]

theorem readHalf16u_pureBus (f : Nat → Nat) (s : Unit) (a : Nat) (ac : AccessCode) :
    readHalf16u (pureBus f) s a ac =
      EmuM.ok ((f a % 256 + 256 * (f (a + 1) % 256)) % 65536, ()) := rfl

theorem readWord32u_pureBus (f : Nat → Nat) (s : Unit) (a : Nat) (ac : AccessCode) :
    readWord32u (pureBus f) s a ac =
      EmuM.ok ((f a % 256 + 256 * (f (a + 1) % 256) + 65536 * (f (a + 2) % 256)
        + 16777216 * (f (a + 3) % 256)) % W32, ()) := rfl

theorem decode_literal_expanded_none {σ : Type} (bus : BusOps σ) (mnm : Mnemonic) (s : σ)
    (addr : Nat) (o : Operand) (s2 : σ)
    (h : decode_operand_literal bus mnm s addr = EmuM.ok (o, s2)) :
    o.expanded_type = none := by
  unfold decode_operand_literal at h
  split at h <;>
    first
      | exact absurd h.symm (EmuM.ok_ne_err _ _)
      | (obtain ⟨a, hx, h2⟩ := EmuM.bind_eq_ok h
         have h3 := EmuM.ok_inj h2
         injection h3 with ho hs
         rw [← ho]
         rfl)

theorem decode_descr_expanded_eq (f : Nat → Nat) (dtype : Data) (etype : Option Data)
    (addr : Nat) (recur : Bool) (fuel : Nat) (o : Operand)
    (h : decode_operand_descriptor (pureBus f) dtype etype () addr recur fuel =
      EmuM.ok (o, ()))
    (hm : nibbleHigh (f addr % 256) ≠ 14) :
    o.expanded_type = etype := by
  cases fuel with
  | zero => exact Option.noConfusion h
  | succ fuel =>
    simp only [decode_operand_descriptor, readByte8_pureBus, EmuM.bind_ok] at h
    split at h
    all_goals try exact absurd (by assumption) hm
    all_goals try split at h
    all_goals
      try simp only [readByte8_pureBus, readHalf16u_pureBus, readWord32u_pureBus,
        EmuM.bind_ok] at h
    all_goals
      first
        | exact absurd h.symm (EmuM.ok_ne_err _ _)
        | (have h3 := EmuM.ok_inj h
           injection h3 with ho hs
           rw [← ho]
           rfl)

theorem decode_descr_expanded_isSome (f : Nat → Nat) (dtype : Data) :
    ∀ (fuel : Nat) (etype : Option Data) (addr : Nat) (recur : Bool) (o : Operand),
      etype.isSome = true →
      decode_operand_descriptor (pureBus f) dtype etype () addr recur fuel =
        EmuM.ok (o, ()) →
      o.expanded_type.isSome = true := by
  intro fuel
  induction fuel with
  | zero => intro etype addr recur o _ h; exact Option.noConfusion h
  | succ fuel ih =>
    intro etype addr recur o hSome h
    simp only [decode_operand_descriptor, readByte8_pureBus, EmuM.bind_ok] at h
    split at h
    all_goals try split at h
    all_goals try (refine ih _ _ _ _ ?_ h; rfl)
    all_goals
      try simp only [readByte8_pureBus, readHalf16u_pureBus, readWord32u_pureBus,
        EmuM.bind_ok] at h
    all_goals
      first
        | exact absurd h.symm (EmuM.ok_ne_err _ _)
        | (have h3 := EmuM.ok_inj h
           injection h3 with ho hs
           rw [← ho]
           exact hSome)

theorem decode_descr_expanded_of_prefix (f : Nat → Nat) (dtype : Data) (etype : Option Data)
    (addr : Nat) (recur : Bool) (fuel : Nat) (o : Operand)
    (h : decode_operand_descriptor (pureBus f) dtype etype () addr recur fuel =
      EmuM.ok (o, ()))
    (hm : nibbleHigh (f addr % 256) = 14) :
    o.expanded_type.isSome = true := by
  cases fuel with
  | zero => exact Option.noConfusion h
  | succ fuel =>
    simp only [decode_operand_descriptor, readByte8_pureBus, EmuM.bind_ok, hm] at h
    split at h
    all_goals
      first
        | exact absurd h.symm (EmuM.ok_ne_err _ _)
        | (refine decode_descr_expanded_isSome f dtype fuel _ _ _ _ ?_ h; rfl)

theorem decode_operands_expandedChain (f : Nat → Nat) (mnm : Mnemonic) (fuel : Nat) :
    ∀ (ots : List OpType) (etype : Option Data) (addr : Nat) (ops : List Operand),
      decode_operands (pureBus f) mnm fuel ots etype () addr = EmuM.ok (ops, ()) →
      expandedChain f ots etype addr ops := by
  intro ots
  induction ots with
  | nil =>
    intro etype addr ops h
    have h3 := EmuM.ok_inj h
    injection h3 with ho hs
    rw [← ho]
    rfl
  | cons ot ots ih =>
    intro etype addr ops h
    simp only [decode_operands] at h
    obtain ⟨os, hOp, h2⟩ := EmuM.bind_eq_ok h
    obtain ⟨rs, hRest, h3⟩ := EmuM.bind_eq_ok h2
    have h4 := EmuM.ok_inj h3
    injection h4 with ho hs
    rw [← ho]
    refine ⟨?_, ih os.1.expanded_type (addr + os.1.size) rs.1 hRest⟩
    cases ot with
    | Lit => exact decode_literal_expanded_none (pureBus f) mnm () addr os.1 os.2 hOp
    | Src =>
      by_cases hm : nibbleHigh (f addr % 256) = 14
      · simp only [hm, if_true]
        exact decode_descr_expanded_of_prefix f mnm.dtype etype addr false fuel os.1 hOp hm
      · simp only [hm, if_false]
        exact decode_descr_expanded_eq f mnm.dtype etype addr false fuel os.1 hOp hm
    | Dest =>
      by_cases hm : nibbleHigh (f addr % 256) = 14
      · simp only [hm, if_true]
        exact decode_descr_expanded_of_prefix f mnm.dtype etype addr false fuel os.1 hOp hm
      · simp only [hm, if_false]
        exact decode_descr_expanded_eq f mnm.dtype etype addr false fuel os.1 hOp hm

/-- C3 counterexample: for the MOVB instruction 87 E7 40 41, the first
operand carries expanded type SByte (the claim says the first operand always
carries none), and the second operand also carries SByte although its
descriptor byte 0x41 is not an Expanded descriptor and is not preceded by
one (the byte before it is the register descriptor 0x40): the single
expansion prefix is inherited by both operands. -/
theorem claim3_counterexample :
    decode_instruction (pureBus progC3) 4 Cpu.new () =
      EmuM.ok (DecodedInstruction.mk (mn 0x87 Data.Byte "MOVB" [OpType.Src, OpType.Dest]) 4
        [Operand.new 2 AddrMode.Register Data.Byte (some Data.SByte) (some 0) 0,
         Operand.new 1 AddrMode.Register Data.Byte (some Data.SByte) (some 1) 0], ()) ∧
    some Data.SByte ≠ (none : Option Data) ∧
    nibbleHigh (progC3 3) ≠ 14 ∧ nibbleHigh (progC3 2) ≠ 14 :=
  ⟨rfl, by decide, by decide, by decide⟩

/-- C3 (amended): in every successfully decoded instruction, the operands
follow the expanded-type chaining discipline: a literal-role operand carries
no expanded type; a source or destination operand whose descriptor begins
with an Expanded (m equal 14) prefix carries some expanded type; every other
source or destination operand inherits exactly the expanded type of the
operand before it, the first operand inheriting none. In particular an
expansion prefix is not consumed by a single operand: it propagates until
overridden or cleared. -/
theorem claim3_expanded_inheritance (f : Nat → Nat) (fuel : Nat) (c : Cpu)
    (instr : DecodedInstruction)
    (h : decode_instruction (pureBus f) fuel c () = EmuM.ok (instr, ())) :
    expandedChain f instr.mnemonic.ops none
      (c.getR R_PC + (if f (c.getR R_PC) % 256 = 0x30 then 2 else 1)) instr.operands := by
  unfold decode_instruction at h
  simp only [readByte8_pureBus, EmuM.bind_ok] at h
  by_cases h30 : f (c.getR R_PC) % 256 = 0x30
  · rw [if_pos h30]
    simp only [h30, if_true, readByte8_pureBus, EmuM.bind_ok] at h
    obtain ⟨rs, hOps, h2⟩ := EmuM.bind_eq_ok h
    have h3 := EmuM.ok_inj h2
    injection h3 with ho hs
    rw [← ho]
    exact decode_operands_expandedChain f _ fuel _ none _ rs.1 hOps
  · rw [if_neg h30]
    simp only [h30, if_false, EmuM.bind_ok] at h
    obtain ⟨rs, hOps, h2⟩ := EmuM.bind_eq_ok h
    have h3 := EmuM.ok_inj h2
    injection h3 with ho hs
    rw [← ho]
    exact decode_operands_expandedChain f _ fuel _ none _ rs.1 hOps

/-- C3 witness: the chaining discipline instantiated on the decode of the
program 87 E7 40 41. -/
theorem claim3_witness :
    expandedChain progC3 [OpType.Src, OpType.Dest] none 1
      [Operand.new 2 AddrMode.Register Data.Byte (some Data.SByte) (some 0) 0,
       Operand.new 1 AddrMode.Register Data.Byte (some Data.SByte) (some 1) 0] :=
  claim3_expanded_inheritance progC3 4 Cpu.new
    (DecodedInstruction.mk (mn 0x87 Data.Byte "MOVB" [OpType.Src, OpType.Dest]) 4
      [Operand.new 2 AddrMode.Register Data.Byte (some Data.SByte) (some 0) 0,
       Operand.new 1 AddrMode.Register Data.Byte (some Data.SByte) (some 1) 0]) rfl

end DmdCore
